import Mathlib

/-!
Verification of the squid-dao-vote-calculator repository.

The repository is a security-audit demonstration harness. Its self-contained
core is the Rate Anomaly Detector described in the design document: a pure
procedure classifying a (quantity, probeRate) probe against a baseline rate
using a threshold configuration. The detector itself is not implemented under
the repository source (only its external-contract probes and the reporting
harness are), so it is modelled here from the design document. The reporting
harness functions of poc_demonstration.py are embedded directly from source.
-/

namespace SquidDao

/-- Fixed-point scale factor: rates and wei quantities are scaled by 10^18. -/
def SCALE : ℕ := 10 ^ 18

/-- Threshold configuration record of the detector. -/
structure ThresholdSet where
  dustThreshold : ℕ
  inflationAlarmFactor : ℚ
  precisionLossAlarmPct : ℚ
  deriving DecidableEq, Repr

/-- Default thresholds named in the design document: dust threshold of
10,000,000 wei, inflation alarm factor 100x, precision-loss alarm 0.01%. -/
def defaultThresholds : ThresholdSet :=
  { dustThreshold := 10000000
    inflationAlarmFactor := 100
    precisionLossAlarmPct := 1 / 100 }

/-- Verdict of one evaluation, with the numeric evidence that produced it. -/
inductive Verdict where
  | Normal (evidence : ℚ)
  | DustInflated (inflationFactor : ℚ) (votingPower : ℕ)
  | PrecisionLoss (lossPct : ℚ)
  | Reverted
  | UnexpectedRevert
  deriving DecidableEq, Repr

/-- Voting power derived from a quantity and a rate: quantity * rate / 10^18
with truncating integer division, as computed throughout the harness
(for example amount * inflated_rate // 10**18 in the audit tests). -/
def votingPower (quantity rate : ℕ) : ℕ :=
  quantity * rate / SCALE

/-- Inflation factor of a probe rate over the baseline rate, real-valued
division (rate ratio as in inflation_factor = squill_lp_equiv_1_wei /
squill_lp_standard of the audit tests). -/
def inflationFactor (probeRate baselineRate : ℕ) : ℚ :=
  (probeRate : ℚ) / (baselineRate : ℚ)

/-- Relative precision loss in percent between the actual derived voting power
and the linear expectation from the baseline rate, 0 when the expectation is 0
(mirrors squill_loss_pct of test_poc_precision_loss_vulnerability). -/
def lossPct (quantity probeRate baselineRate : ℕ) : ℚ :=
  let expected := votingPower quantity baselineRate
  let actual := votingPower quantity probeRate
  if 0 < expected then
    |(actual : ℚ) - (expected : ℚ)| / (expected : ℚ) * 100
  else 0

/-- Modelled from the spec: the Rate Anomaly Detector `evaluate` of design
document section 4.1 is not implemented under the repository source (only the
external contract probes and the report glue are); this definition follows the
document's six behavioural steps and its section 7 error taxonomy. A reverted
probe is the `none` probe rate: below the dust threshold it is the secure
Reverted outcome, at or above it the distinct UnexpectedRevert. A zero
quantity is Normal with evidence 0. A dust-sized quantity whose inflation
factor exceeds the alarm factor is DustInflated with the factor and the
derived voting power as evidence. Otherwise a loss percentage above the alarm
percentage is PrecisionLoss, and anything else is Normal with the inflation
factor as evidence. -/
def evaluate (quantity : ℕ) (probeRate : Option ℕ) (baselineRate : ℕ)
    (thresholds : ThresholdSet) : Verdict :=
  match probeRate with
  | none =>
      if quantity < thresholds.dustThreshold then Verdict.Reverted
      else Verdict.UnexpectedRevert
  | some rate =>
      if quantity = 0 then Verdict.Normal 0
      else if quantity < thresholds.dustThreshold ∧
          thresholds.inflationAlarmFactor < inflationFactor rate baselineRate then
        Verdict.DustInflated (inflationFactor rate baselineRate)
          (votingPower quantity rate)
      else if thresholds.precisionLossAlarmPct < lossPct quantity rate baselineRate then
        Verdict.PrecisionLoss (lossPct quantity rate baselineRate)
      else Verdict.Normal (inflationFactor rate baselineRate)

end SquidDao

namespace PocDemo

/-- Dust amounts probed by demonstrate_dust_attack_poc (poc_demonstration.py,
line 62). -/
def dust_amounts : List ℕ := [1, 100, 1000, 1000000, 5000000, 9999999]

/-- Embeds the vulnerability_found loop of demonstrate_dust_attack_poc
(poc_demonstration.py, lines 68-103): the flag starts False and the
amount == 1 branch sets it True; the flag is the return value. -/
def demonstrate_dust_attack_poc : Bool :=
  dust_amounts.foldl (fun vulnerability_found amount =>
    if amount = 1 then true else vulnerability_found) false

/-- Voter rows of demonstrate_balance_calculation_poc (poc_demonstration.py,
lines 122-126): address and description pairs. -/
def test_voters : List (String × String) :=
  [("0x5abC63ebF1950d531408cf8E12cE24c047504847", "Voter with raw SQUID only"),
   ("0xb19d6b66b18fae0fca1023138b229e5f970b5180", "Voter with SQUID + LP tokens"),
   ("0x6c46f3f23ed4a070da8d7c1af302d09394efb79f", "Voter with complex portfolio")]

/-- Simulated expected total of each voter (poc_demonstration.py, lines
134-139): 1000 SQUID plus 0.5 and 0.3 LP tokens at rate 12.6445, the literal
arithmetic carried over exactly in rationals. -/
def expected_total : ℚ :=
  1000 * 10 ^ 18 + ((1 / 2) * 10 ^ 18) * (126445 / 10000)
    + ((3 / 10) * 10 ^ 18) * (126445 / 10000)

/-- Simulated actual total (poc_demonstration.py, line 140): assigned equal to
the expected total. -/
def actual_total : ℚ := expected_total

/-- Per-voter status of the balance loop (poc_demonstration.py, lines
132-145): the per-iteration totals do not depend on the voter row, and the
status is ACCURATE when the absolute difference is at most 1. The source
computes the totals in floating point; the rational arithmetic used here
agrees on every property below because the actual total is assigned equal to
the expected total, making the difference exactly zero in either semantics. -/
def balance_status (_voter : String × String) : String :=
  if |actual_total - expected_total| ≤ 1 then "ACCURATE" else "MISMATCH"

/-- Embeds demonstrate_balance_calculation_poc (poc_demonstration.py, lines
105-148): the loop computes one status per voter and the function returns
True unconditionally. -/
def demonstrate_balance_calculation_poc : Bool :=
  let _statuses := test_voters.map balance_status
  true

/-- Edge cases of demonstrate_lp_equivalent_edge_cases (poc_demonstration.py,
lines 167-173). -/
def edge_cases : List (ℕ × String × String) :=
  [(0, "Zero quantity", "Should return 0"),
   (10 ^ 6, "Micro amount", "Dust protection check"),
   (10 ^ 18, "Standard amount", "Normal calculation"),
   (10 ^ 24, "Large amount", "Overflow protection"),
   (10 ^ 27, "Maximum amount", "Extreme value handling")]

/-- Per-quantity result string of the edge-case loop (poc_demonstration.py,
lines 179-187). -/
def edge_case_result (quantity : ℕ) : String :=
  if quantity = 0 then "Returns 0"
  else if quantity < 10000000 then "Dust protected"
  else if 10 ^ 24 ≤ quantity then "No overflow"
  else "Normal calc"

/-- Embeds demonstrate_lp_equivalent_edge_cases (poc_demonstration.py, lines
150-192): computes one result string per edge case and returns True. -/
def demonstrate_lp_equivalent_edge_cases : Bool :=
  let _results := edge_cases.map (fun c => edge_case_result c.1)
  true

/-- Embeds demonstrate_census_functionality_poc (poc_demonstration.py, lines
194-226): prints fixed rows and returns True. -/
def demonstrate_census_functionality_poc : Bool := true

/-- The poc_results list built by main (poc_demonstration.py, lines 246-264):
name, executed flag and severity, where the dust-attack severity is CRITICAL
exactly when the vulnerability was found. -/
def poc_results : List (String × Bool × String) :=
  [("Dust Attack Vulnerability", demonstrate_dust_attack_poc,
      if demonstrate_dust_attack_poc then "CRITICAL" else "PASS"),
   ("Balance Calculation Accuracy", demonstrate_balance_calculation_poc, "PASS"),
   ("LP Equivalent Edge Cases", demonstrate_lp_equivalent_edge_cases, "PASS"),
   ("Census Functionality", demonstrate_census_functionality_poc, "PASS")]

/-- The critical_found flag of main (poc_demonstration.py, lines 273-278):
set when any result row carries severity CRITICAL. -/
def critical_found : Bool :=
  poc_results.any (fun r => r.2.2 == "CRITICAL")

/-- Exit status of main (poc_demonstration.py, line 295): 0 when no critical
finding, else 1. -/
def main : ℕ :=
  if critical_found then 1 else 0

end PocDemo

namespace SquidDao

/-- Unfolding lemma: a non-reverted, positive-quantity probe meeting the dust
condition yields DustInflated with the inflation factor and derived voting
power as evidence. -/
lemma evaluate_some_dust (q r b : ℕ) (t : ThresholdSet) (hq : q ≠ 0)
    (hcond : q < t.dustThreshold ∧
      t.inflationAlarmFactor < inflationFactor r b) :
    evaluate q (some r) b t
      = Verdict.DustInflated (inflationFactor r b) (votingPower q r) := by
  simp [evaluate, hq, hcond]

/-- Unfolding lemma: a non-reverted, positive-quantity probe failing the dust
condition falls through to the precision-loss check. -/
lemma evaluate_some_not_dust (q r b : ℕ) (t : ThresholdSet) (hq : q ≠ 0)
    (hcond : ¬(q < t.dustThreshold ∧
      t.inflationAlarmFactor < inflationFactor r b)) :
    evaluate q (some r) b t
      = if t.precisionLossAlarmPct < lossPct q r b then
          Verdict.PrecisionLoss (lossPct q r b)
        else Verdict.Normal (inflationFactor r b) := by
  simp [evaluate, hq, hcond]

/-- The loss percentage of a probe whose rate equals the baseline is zero. -/
lemma lossPct_self (q b : ℕ) : lossPct q b b = 0 := by
  simp [lossPct]

end SquidDao

open SquidDao PocDemo

/-- C2: for every probe whose external call is reported as reverted with
quantity at or above the dust threshold, evaluate returns the distinct
verdict UnexpectedRevert rather than Reverted. -/
theorem claim2_revert_at_or_above_threshold_unexpected (q b : ℕ)
    (t : ThresholdSet) (h : t.dustThreshold ≤ q) :
    evaluate q none b t = Verdict.UnexpectedRevert := by
  simp [evaluate, Nat.not_lt.mpr h]

/-- C2 witness: quantity 10,000,001 with a reverting probe under the default
thresholds yields UnexpectedRevert. -/
theorem claim2_revert_at_or_above_threshold_unexpected_witness :
    defaultThresholds.dustThreshold ≤ 10000001 ∧
    evaluate 10000001 none (126445 * 10 ^ 14) defaultThresholds
      = Verdict.UnexpectedRevert :=
  ⟨by decide, claim2_revert_at_or_above_threshold_unexpected 10000001
    (126445 * 10 ^ 14) defaultThresholds (by decide)⟩

/-- C3: for every probe whose external call is reported as reverted with
quantity below the dust threshold, evaluate returns Reverted, the secure
outcome. -/
theorem claim3_revert_below_threshold_secure (q b : ℕ) (t : ThresholdSet)
    (h : q < t.dustThreshold) :
    evaluate q none b t = Verdict.Reverted := by
  simp [evaluate, h]

/-- C3 witness: quantity 9,999,999 with a reverting probe under the default
thresholds yields Reverted. -/
theorem claim3_revert_below_threshold_secure_witness :
    9999999 < defaultThresholds.dustThreshold ∧
    evaluate 9999999 none (126445 * 10 ^ 14) defaultThresholds
      = Verdict.Reverted :=
  ⟨by decide, claim3_revert_below_threshold_secure 9999999
    (126445 * 10 ^ 14) defaultThresholds (by decide)⟩

/-- C4: for every non-reverted probe with quantity 0, and every probe rate,
baseline rate and threshold set, evaluate returns Normal with evidence 0. -/
theorem claim4_zero_quantity_normal_zero (r b : ℕ) (t : ThresholdSet) :
    evaluate 0 (some r) b t = Verdict.Normal 0 := by
  simp [evaluate]

/-- C9: demonstrate_dust_attack_poc always returns True, since its
dust_amounts list contains 1 and the amount-equals-1 branch sets the
vulnerability flag; consequently main's critical_found flag is set and main
always returns exit status 1. -/
theorem claim9_dust_poc_always_critical_exit_one :
    1 ∈ dust_amounts ∧ demonstrate_dust_attack_poc = true ∧
    critical_found = true ∧ PocDemo.main = 1 :=
  ⟨by decide, by decide, by decide, by decide⟩

/-- C10: in demonstrate_balance_calculation_poc the actual total is assigned
equal to the expected total, so the difference is 0, every voter row is
reported ACCURATE, and the function returns True. -/
theorem claim10_balance_poc_always_accurate :
    actual_total = expected_total ∧
    |actual_total - expected_total| = 0 ∧
    (∀ voter ∈ test_voters, balance_status voter = "ACCURATE") ∧
    demonstrate_balance_calculation_poc = true := by
  refine ⟨rfl, by simp [actual_total], ?_, rfl⟩
  intro voter _
  norm_num [balance_status, actual_total]

/-- C1: for every non-reverted probe with positive quantity, evaluate returns
DustInflated exactly when the quantity is below the dust threshold and the
inflation factor probeRate / baselineRate exceeds the alarm factor; when it
does, the evidence is that inflation factor together with the derived voting
power quantity * probeRate / 10^18 under truncating division; and a quantity
at or above the dust threshold is never DustInflated. -/
theorem claim1_dust_inflated_iff (q r b : ℕ) (t : ThresholdSet) (hq : 0 < q) :
    ((∃ e v, evaluate q (some r) b t = Verdict.DustInflated e v) ↔
      q < t.dustThreshold ∧ t.inflationAlarmFactor < (r : ℚ) / (b : ℚ)) ∧
    (∀ e v, evaluate q (some r) b t = Verdict.DustInflated e v →
      e = (r : ℚ) / (b : ℚ) ∧ v = q * r / 10 ^ 18) ∧
    (t.dustThreshold ≤ q →
      ∀ e v, evaluate q (some r) b t ≠ Verdict.DustInflated e v) := by
  have hq0 : q ≠ 0 := hq.ne'
  by_cases hcond : q < t.dustThreshold ∧
      t.inflationAlarmFactor < inflationFactor r b
  · rw [evaluate_some_dust q r b t hq0 hcond]
    refine ⟨⟨fun _ => hcond, fun _ => ⟨_, _, rfl⟩⟩, ?_, ?_⟩
    · intro e v h
      injection h with h1 h2
      exact ⟨h1.symm, h2.symm⟩
    · intro hge e v _
      exact absurd hcond.1 (Nat.not_lt.mpr hge)
  · rw [evaluate_some_not_dust q r b t hq0 hcond]
    have hnone : ∀ e v,
        (if t.precisionLossAlarmPct < lossPct q r b then
          Verdict.PrecisionLoss (lossPct q r b)
        else Verdict.Normal (inflationFactor r b)) ≠ Verdict.DustInflated e v := by
      intro e v
      split_ifs <;> exact fun h => Verdict.noConfusion h
    refine ⟨⟨?_, fun h => absurd h hcond⟩, ?_, ?_⟩
    · rintro ⟨e, v, h⟩
      exact absurd h (hnone e v)
    · intro e v h
      exact absurd h (hnone e v)
    · intro _ e v
      exact hnone e v

/-- C1 witness: at quantity 1, probe rate 1000, baseline rate 1 and the
default thresholds, the hypotheses hold and the characterisation applies. -/
theorem claim1_dust_inflated_iff_witness :
    0 < 1 ∧
    (((∃ e v, evaluate 1 (some 1000) 1 defaultThresholds
          = Verdict.DustInflated e v) ↔
        1 < defaultThresholds.dustThreshold ∧
          defaultThresholds.inflationAlarmFactor
            < ((1000 : ℕ) : ℚ) / ((1 : ℕ) : ℚ)) ∧
      (∀ e v, evaluate 1 (some 1000) 1 defaultThresholds
          = Verdict.DustInflated e v →
        e = ((1000 : ℕ) : ℚ) / ((1 : ℕ) : ℚ) ∧ v = 1 * 1000 / 10 ^ 18) ∧
      (defaultThresholds.dustThreshold ≤ 1 →
        ∀ e v, evaluate 1 (some 1000) 1 defaultThresholds
          ≠ Verdict.DustInflated e v)) :=
  ⟨Nat.one_pos, claim1_dust_inflated_iff 1 1000 1 defaultThresholds Nat.one_pos⟩

/-- C5: for every non-reverted probe with positive quantity not classified
DustInflated, evaluate derives the expected and actual voting powers by
truncating division, takes the guarded relative loss percentage, and returns
PrecisionLoss with that evidence exactly when it exceeds the alarm
percentage. -/
theorem claim5_precision_loss_iff (q r b : ℕ) (t : ThresholdSet) (hq : 0 < q)
    (hnd : ∀ e v, evaluate q (some r) b t ≠ Verdict.DustInflated e v) :
    votingPower q b = q * b / 10 ^ 18 ∧
    votingPower q r = q * r / 10 ^ 18 ∧
    lossPct q r b = (if 0 < votingPower q b then
        |((votingPower q r : ℕ) : ℚ) - ((votingPower q b : ℕ) : ℚ)|
          / ((votingPower q b : ℕ) : ℚ) * 100
      else 0) ∧
    (evaluate q (some r) b t = Verdict.PrecisionLoss (lossPct q r b) ↔
      t.precisionLossAlarmPct < lossPct q r b) ∧
    (∀ l, evaluate q (some r) b t = Verdict.PrecisionLoss l →
      l = lossPct q r b) := by
  have hq0 : q ≠ 0 := hq.ne'
  have hcond : ¬(q < t.dustThreshold ∧
      t.inflationAlarmFactor < inflationFactor r b) := fun hc =>
    hnd _ _ (evaluate_some_dust q r b t hq0 hc)
  rw [evaluate_some_not_dust q r b t hq0 hcond]
  refine ⟨rfl, rfl, rfl, ?_, ?_⟩
  · split_ifs with hlt
    · exact ⟨fun _ => hlt, fun _ => rfl⟩
    · simp [hlt]
  · intro l h
    split_ifs at h with hlt
    injection h with h1
    exact h1.symm

/-- C5 witness: at quantity 3, probe rate 5 * 10^17, baseline rate 10^18 and
the default thresholds, the probe is not DustInflated (it is PrecisionLoss
with loss 200/3 percent) and the characterisation applies. -/
theorem claim5_precision_loss_iff_witness :
    0 < 3 ∧
    (votingPower 3 (10 ^ 18) = 3 * 10 ^ 18 / 10 ^ 18 ∧
      votingPower 3 (5 * 10 ^ 17) = 3 * (5 * 10 ^ 17) / 10 ^ 18 ∧
      lossPct 3 (5 * 10 ^ 17) (10 ^ 18) = (if 0 < votingPower 3 (10 ^ 18) then
          |((votingPower 3 (5 * 10 ^ 17) : ℕ) : ℚ)
              - ((votingPower 3 (10 ^ 18) : ℕ) : ℚ)|
            / ((votingPower 3 (10 ^ 18) : ℕ) : ℚ) * 100
        else 0) ∧
      (evaluate 3 (some (5 * 10 ^ 17)) (10 ^ 18) defaultThresholds
          = Verdict.PrecisionLoss (lossPct 3 (5 * 10 ^ 17) (10 ^ 18)) ↔
        defaultThresholds.precisionLossAlarmPct
          < lossPct 3 (5 * 10 ^ 17) (10 ^ 18)) ∧
      (∀ l, evaluate 3 (some (5 * 10 ^ 17)) (10 ^ 18) defaultThresholds
          = Verdict.PrecisionLoss l →
        l = lossPct 3 (5 * 10 ^ 17) (10 ^ 18))) := by
  have hev : evaluate 3 (some (5 * 10 ^ 17)) (10 ^ 18) defaultThresholds
      = Verdict.PrecisionLoss (200 / 3) := by
    norm_num [evaluate, defaultThresholds, inflationFactor, votingPower,
      lossPct, SCALE]
  refine ⟨by norm_num, claim5_precision_loss_iff 3 (5 * 10 ^ 17) (10 ^ 18)
    defaultThresholds (by norm_num) ?_⟩
  intro e v h
  rw [hev] at h
  exact Verdict.noConfusion h

/-- C6 counterexample: the claim includes quantity 0, but at quantity 0 with
probe rate equal to the baseline rate evaluate returns Normal with evidence 0,
not Normal with inflation-factor evidence 1. -/
theorem claim6_counterexample_zero_quantity :
    evaluate 0 (some 5) 5 defaultThresholds = Verdict.Normal 0 ∧
    evaluate 0 (some 5) 5 defaultThresholds ≠ Verdict.Normal 1 := by
  have h0 : evaluate 0 (some 5) 5 defaultThresholds = Verdict.Normal 0 := by
    simp [evaluate]
  refine ⟨h0, ?_⟩
  rw [h0]
  intro h
  injection h with h1
  exact absurd h1 (by norm_num)

/-- C6 amended: for every quantity and non-reverted probe with probe rate
equal to a positive baseline rate, under thresholds whose inflation alarm
factor is at least 1 and whose precision-loss alarm is nonnegative (the
defaults qualify), evaluate returns Normal, with evidence 1 when the quantity
is positive and evidence 0 at quantity 0. -/
theorem claim6_equal_rates_normal (q b : ℕ) (t : ThresholdSet) (hb : 0 < b)
    (halarm : 1 ≤ t.inflationAlarmFactor)
    (hpct : 0 ≤ t.precisionLossAlarmPct) :
    evaluate q (some b) b t = Verdict.Normal (if q = 0 then 0 else 1) := by
  by_cases hq : q = 0
  · simp [hq, evaluate]
  · have hinf : inflationFactor b b = 1 := by
      unfold inflationFactor
      exact div_self (Nat.cast_ne_zero.mpr hb.ne')
    have hcond : ¬(q < t.dustThreshold ∧
        t.inflationAlarmFactor < inflationFactor b b) := by
      rintro ⟨-, hlt⟩
      rw [hinf] at hlt
      exact absurd halarm (not_le.mpr hlt)
    rw [evaluate_some_not_dust q b b t hq hcond, lossPct_self,
      if_neg (not_lt.mpr hpct), hinf, if_neg hq]

/-- C6 witness: at quantity 10^18 with probe and baseline rates both 2 under
the default thresholds, the hypotheses hold and the verdict is Normal with
evidence 1. -/
theorem claim6_equal_rates_normal_witness :
    0 < 2 ∧ 1 ≤ defaultThresholds.inflationAlarmFactor ∧
    0 ≤ defaultThresholds.precisionLossAlarmPct ∧
    evaluate (10 ^ 18) (some 2) 2 defaultThresholds
      = Verdict.Normal (if (10 ^ 18 : ℕ) = 0 then 0 else 1) :=
  ⟨by norm_num, by norm_num [defaultThresholds],
    by norm_num [defaultThresholds],
    claim6_equal_rates_normal (10 ^ 18) 2 defaultThresholds (by norm_num)
      (by norm_num [defaultThresholds]) (by norm_num [defaultThresholds])⟩

/-- C7: at quantity 1, probe rate 5,162,271 * 10^18, baseline rate
12.6445 * 10^18 = 126445 * 10^14 and the default thresholds, evaluate returns
DustInflated; the derived voting power is exactly 5,162,271 and the
inflation-factor evidence is within 0.1 percent of 408,160. -/
theorem claim7_dust_attack_scenario :
    evaluate 1 (some (5162271 * 10 ^ 18)) (126445 * 10 ^ 14) defaultThresholds
      = Verdict.DustInflated
          ((5162271 * 10 ^ 18 : ℚ) / (126445 * 10 ^ 14 : ℚ))
          (1 * (5162271 * 10 ^ 18) / 10 ^ 18) ∧
    1 * (5162271 * 10 ^ 18) / 10 ^ 18 = 5162271 ∧
    |(5162271 * 10 ^ 18 : ℚ) / (126445 * 10 ^ 14 : ℚ) - 408160|
      ≤ 408160 / 1000 := by
  refine ⟨?_, by norm_num, ?_⟩
  · norm_num [evaluate, defaultThresholds, inflationFactor, votingPower, SCALE]
  · rw [abs_of_nonneg (by norm_num)]
    norm_num

/-- C8: for every input meeting the contract preconditions (quantities and
rates are naturals, the baseline rate is positive, a reverted probe is a
typed signal), evaluate is total: it returns one of the five verdicts; the
loss-percentage division is guarded by the positive-expectation condition,
and the inflation-factor denominator is nonzero under the precondition. -/
theorem claim8_evaluate_total (q : ℕ) (p : Option ℕ) (b : ℕ)
    (t : ThresholdSet) (hb : 0 < b) :
    ((∃ e, evaluate q p b t = Verdict.Normal e) ∨
      (∃ e v, evaluate q p b t = Verdict.DustInflated e v) ∨
      (∃ l, evaluate q p b t = Verdict.PrecisionLoss l) ∨
      evaluate q p b t = Verdict.Reverted ∨
      evaluate q p b t = Verdict.UnexpectedRevert) ∧
    (∀ r, votingPower q b = 0 → lossPct q r b = 0) ∧
    ((b : ℚ) ≠ 0) := by
  refine ⟨?_, ?_, Nat.cast_ne_zero.mpr hb.ne'⟩
  · rcases p with _ | r
    · unfold evaluate
      split_ifs <;> simp
    · by_cases hq : q = 0
      · exact Or.inl ⟨0, by simp [evaluate, hq]⟩
      · by_cases hcond : q < t.dustThreshold ∧
            t.inflationAlarmFactor < inflationFactor r b
        · exact Or.inr (Or.inl ⟨_, _, evaluate_some_dust q r b t hq hcond⟩)
        · rw [evaluate_some_not_dust q r b t hq hcond]
          by_cases hlt : t.precisionLossAlarmPct < lossPct q r b
          · exact Or.inr (Or.inr (Or.inl ⟨_, by rw [if_pos hlt]⟩))
          · exact Or.inl ⟨_, by rw [if_neg hlt]⟩
  · intro r h0
    simp [lossPct, h0]

/-- C8 witness: at quantity 1, probe rate 1, baseline rate 1 and the default
thresholds, the precondition holds and the totality statement applies. -/
theorem claim8_evaluate_total_witness :
    0 < 1 ∧
    (((∃ e, evaluate 1 (some 1) 1 defaultThresholds = Verdict.Normal e) ∨
      (∃ e v, evaluate 1 (some 1) 1 defaultThresholds
        = Verdict.DustInflated e v) ∨
      (∃ l, evaluate 1 (some 1) 1 defaultThresholds
        = Verdict.PrecisionLoss l) ∨
      evaluate 1 (some 1) 1 defaultThresholds = Verdict.Reverted ∨
      evaluate 1 (some 1) 1 defaultThresholds = Verdict.UnexpectedRevert) ∧
    (∀ r, votingPower 1 1 = 0 → lossPct 1 r 1 = 0) ∧
    (((1 : ℕ) : ℚ) ≠ 0)) :=
  ⟨Nat.one_pos, claim8_evaluate_total 1 (some 1) 1 defaultThresholds
    Nat.one_pos⟩
